import Mathlib

/- Verification of the agent-automata orchestration core.

The definitions below are a shallow embedding of the Python sources:
`agent_automata/automaton.py`, `agent_automata/sessions.py`,
`agent_automata/planners.py`, `agent_automata/engines.py`,
`agent_automata/knowledge.py`, `agent_automata/reflectors.py`,
`agent_automata/builtin_toolkit/*`, together with the modules the package
imports that live in the repository's parallel directories:
`automata/types.py`, `automata/validators.py`, `automata/automaton_loading.py`
and `automata_core/utilities/__init__.py`.

Modelling conventions:
- `async` functions become pure Lean functions; cooperative suspension has no
  observable effect within a single run and is dropped.
- Python exceptions become an `Except PyError` result; `PyError` records the
  Python exception class and message.
- The event-log file system becomes an append-only list of log entries inside
  an explicit state `St`; a log stream is addressed by the
  (automaton id, session id) pair stored in each entry, mirroring the
  `automata_location / id / "event_log" / session.jsonl` path.
- `generate_timestamp_id` (a wall-clock timestamp) becomes a deterministic
  function of a logical clock carried in `St`.  The per-automaton session id,
  which the memoized `_load_automaton` fixes once per cache key, becomes a
  `World` function of that key.
- Dynamically imported `.py` capabilities (`quick_import`) and the external
  LLM engines are outside any shallow embedding; a `World` record supplies
  their behaviour as unrestricted functions and the theorems quantify over
  the `World`.
- The unbounded `while True` loop and the unbounded recursion of
  `load_automaton` are driven by an explicit fuel parameter; exhausted fuel
  is reported as the distinguished `PyError.outOfFuel`, which no modelled
  Python code path produces.
-/

/-- Python exception classes raised (or catchable) in the modelled code. -/
inductive PyError where
  | keyboardInterrupt
  | valueError (msg : String)
  | notImplementedError (msg : String)
  | fileNotFound (path : String)
  | runtimeError (msg : String)
  | outOfFuel
  deriving DecidableEq, Repr

/-- `AutomatonAction` from `automata/types.py`: the result of planning. -/
structure AutomatonAction where
  automaton_id : String
  request : String
  deriving DecidableEq, Repr

/-- `AutomatonStep` from `automata/types.py`: one orchestration-loop iteration. -/
structure AutomatonStep where
  reflection : Option (List String)
  plan_text : String
  planned_action : AutomatonAction
  result : String
  deriving DecidableEq, Repr

/-- The event dict built in `add_session_handling` (`sessions.py`). -/
structure Event where
  requester : String
  sub_automaton_name : String
  input : String
  result : String
  timestamp : String
  deriving DecidableEq, Repr

/-- One line appended by `save_event` to the `.jsonl` log stream addressed by
(`log_automaton_id`, `log_session_id`). -/
structure LogEntry where
  log_automaton_id : String
  log_session_id : String
  event : Event
  deriving DecidableEq, Repr

/-- Mutable world state of a run: the event-log file system (append-only) and
a logical clock standing in for the wall clock. -/
structure St where
  logs : List LogEntry
  clock : Nat
  deriving DecidableEq, Repr

/-- Models `utilities.generate_timestamp_id` as a function of the logical
clock (the real function formats the current UTC time). -/
def generate_timestamp_id (clock : Nat) : String :=
  "ts-" ++ toString clock

/-- Advance the logical clock (time passing at an observation point). -/
def tick (st : St) : St :=
  ⟨st.logs, st.clock + 1⟩

/-- `sessions.save_event`: append one event to the log stream of
(`automaton_id`, `session_id`). -/
def save_event (event : Event) (automaton_id : String) (session_id : String)
    (st : St) : St :=
  ⟨st.logs ++ [⟨automaton_id, session_id, event⟩], st.clock⟩

/-- The stand-in result substituted for `KeyboardInterrupt` in
`add_session_handling`; a function of the display name only. -/
def interruption_result (automaton_name : String) : String :=
  "Sub-automaton `" ++ automaton_name ++
    "` took too long to process and was manually stopped."

/-- The event construction and double `save_event` at the end of
`add_session_handling`: one append to the running automaton's own
(`automaton_id`, `session_id`) log, then one append of the same event to the
requester's (`requester_id`, `requester_session_id`) log. -/
def record_run_event (automaton_id : String) (session_id : String)
    (requester_id : String) (requester_session_id : String)
    (request : String) (result : String) (st : St) : St :=
  let event : Event :=
    ⟨requester_id, automaton_id, request, result, generate_timestamp_id st.clock⟩
  save_event event requester_id requester_session_id
    (save_event event automaton_id session_id (tick st))

/-- `sessions.add_session_handling`: wrap a runner so that a
`KeyboardInterrupt` is replaced by a deterministic stand-in result, and every
run that yields a result (normally or via that substitution) is recorded as
one event in the two logs.  Any other exception propagates unchanged and
records nothing.  The `print` calls have no modelled effect. -/
def add_session_handling (run : String → St → Except PyError String × St)
    (automaton_id : String) (automaton_name : String) (session_id : String)
    (requester_id : String) (requester_session_id : String) :
    String → St → Except PyError String × St :=
  fun request st =>
    match run request st with
    | (.ok result, st1) =>
        (.ok result,
          record_run_event automaton_id session_id requester_id
            requester_session_id request result st1)
    | (.error .keyboardInterrupt, st1) =>
        let result := interruption_result automaton_name
        (.ok result,
          record_run_event automaton_id session_id requester_id
            requester_session_id request result st1)
    | (.error e, st1) => (.error e, st1)

/-- The wiring of one pluggable capability in a definition document: a
`name`/`engine` mapping (the engine value may be yaml `null`). -/
structure CapabilityRef where
  name : String
  engine : Option String
  deriving DecidableEq, Repr

/-- The `reasoning` section of a definition document, as read by
`run_core_automaton`: `knowledge` and `reflector` may be `null`, the
`planner` mapping is always dereferenced. -/
structure ReasoningData where
  knowledge : Option CapabilityRef
  reflector : Option CapabilityRef
  planner : CapabilityRef
  deriving DecidableEq, Repr

/-- The in-memory definition document produced by
`automaton_loading.load_automaton_data`, restricted to the keys the modelled
code reads.  `extra_args_engine` models `extra_args.get("engine")`, the only
`extra_args` entry the built-in toolkit consults. -/
structure AutomatonData where
  name : String
  description : String
  input_validator : Option CapabilityRef
  input_requirements : List String
  objectives : List String
  output_format : String
  reasoning : ReasoningData
  sub_automata : List String
  runner : String
  extra_args_engine : Option String
  deriving DecidableEq, Repr

/-- The `Engine` boundary (`automata/types.py`): prompt and stop sequences to
completion text.  Chat-style message-sequence prompts are flattened to the
request text by the one modelled caller that uses them. -/
def Engine : Type := String → List String → String

/-- The `Knowledge` boundary: topic to retrieved text. -/
def Knowledge : Type := String → String

/-- The `Reflector` boundary. -/
def Reflector : Type :=
  String → List AutomatonStep → Option Knowledge → List String

/-- The `IOValidator` boundary: value to (is-valid, message). -/
def Validator : Type := String → Bool × String

/-- The `Planner` boundary.  The sub-automata data argument keeps the
insertion order of the `sub_automata` list, like the Python dict built in
`run_core_automaton`. -/
def Planner : Type :=
  String → List AutomatonStep → Option (List String) → AutomatonData →
    List (String × AutomatonData) → Except PyError (AutomatonAction × String)

/-- A leaf runner body (`AutomatonRunner` restricted to pure behaviour). -/
def RunnerFn : Type := String → Except PyError String

/-- The environment of a run: the definition store, the behaviour of
dynamically imported `.py` capabilities, the external LLM engines, and the
session identifier that the memoized `_load_automaton` fixes per cache key. -/
structure World where
  defs : String → Option AutomatonData
  sessionOf : String → String → String → String
  builtinEngine : String → Engine
  customEngine : String → String → Engine
  customPlanner : String → String → Option Engine → Planner
  customReflector : String → String → Option Engine → Reflector
  customKnowledge : String → String → Option Engine → Knowledge
  customValidator :
    String → String → Option Engine → List String → List String → Validator
  customRunner : String → String → AutomatonData → String → RunnerFn
  parseSaveRequest : String → Option (String × String)

/-- An apostrophe character, for rendering Python `repr` of strings. -/
def squote : String := String.singleton (Char.ofNat 39)

/-- Python `repr` of a list of strings that contain double quotes (each
element is rendered single-quoted), as interpolated by f-strings. -/
def pyReprList (xs : List String) : String :=
  "[" ++ String.intercalate ", " (xs.map (fun s => squote ++ s ++ squote)) ++ "]"

/-- Python `repr` of a set of plain strings, in insertion order. -/
def pyReprSet (xs : List String) : String :=
  "\x7b" ++
    String.intercalate ", " (xs.map (fun s => squote ++ s ++ squote)) ++ "\x7d"

/-- Python `str.endswith`. -/
def strEndsWith (s : String) (suffix : String) : Bool :=
  suffix.data.isSuffixOf s.data

/-- Drop a leading and trailing run of characters satisfying `p`
(one Python `str.strip(chars)` call). -/
def stripEnds (s : String) (p : Char → Bool) : String :=
  String.mk (((s.data.dropWhile p).reverse.dropWhile p).reverse)

/-- Python `str.strip()` (no argument): strip surrounding whitespace. -/
def pyTrim (s : String) : String :=
  stripEnds s Char.isWhitespace

/-- The `.strip().strip(" ").strip(QUOTE).strip(".")` chain applied by
`react.parse_result` to the captured groups. -/
def pyStrip (s : String) : String :=
  stripEnds (stripEnds (stripEnds (pyTrim s) (fun c => c == ' '))
    (fun c => c == '"')) (fun c => c == '.')

/-- Locate the first occurrence of `marker` in a character list, returning
the characters before it and the characters after it. -/
def findMarker (marker : List Char) : List Char → Option (List Char × List Char)
  | [] => if marker.isEmpty then some ([], []) else none
  | c :: rest =>
    if marker.isPrefixOf (c :: rest) then
      some ([], (c :: rest).drop marker.length)
    else
      match findMarker marker rest with
      | none => none
      | some pr => some (c :: pr.1, pr.2)

/-- Split `s` at the first occurrence of `marker`, returning the text before
and after it; `none` when the marker does not occur. -/
def splitFirst (marker : String) (s : String) : Option (String × String) :=
  match findMarker marker.data s.data with
  | none => none
  | some pr => some (String.mk pr.1, String.mk pr.2)

/-- `BUILTIN_ENGINES` from `builtin_toolkit/engines.py`. -/
def BUILTIN_ENGINES : List String := ["gpt-3.5-turbo", "gpt-4"]

/-- `engines._load_engine` / `load_engine`: `None` wiring stays absent, a
`.py` name loads the custom engine from the automaton's location, otherwise
the built-in registry is consulted and an unknown name raises `ValueError`
naming the built-in set. -/
def load_engine (w : World) (automaton_id : String) (name : Option String) :
    Except PyError (Option Engine) :=
  match name with
  | none => .ok none
  | some n =>
    if strEndsWith n ".py" then .ok (some (w.customEngine automaton_id n))
    else if n = "gpt-3.5-turbo" ∨ n = "gpt-4" then
      .ok (some (w.builtinEngine n))
    else
      .error (.valueError
        ("Engine " ++ n ++ " not part of builtin engines: `" ++
          pyReprSet BUILTIN_ENGINES ++ "`"))

/-- `automata/validators.py` `load_validator` / `_load_validator`:
absent wiring stays absent; the engine is resolved first; a `.py` name loads
a custom validator; otherwise a missing engine is a `ValueError`, and since
`BUILTIN_VALIDATORS` is empty every built-in lookup fails. -/
def load_validator (w : World) (automaton_id : String)
    (data : Option CapabilityRef) (requirements : List String)
    (objectives : List String) : Except PyError (Option Validator) :=
  match data with
  | none => .ok none
  | some ref =>
    match load_engine w automaton_id ref.engine with
    | .error e => .error e
    | .ok engineOpt =>
      if strEndsWith ref.name ".py" then
        .ok (some (w.customValidator automaton_id ref.name engineOpt
          requirements objectives))
      else
        match engineOpt with
        | none =>
          .error (.valueError
            ("Must specify `engine` for validator `" ++ ref.name ++
              "`. Please check specs at `" ++ automaton_id ++ "`."))
        | some _ =>
          .error (.valueError ("Validator `" ++ ref.name ++ "` not found."))

/-- `knowledge.load_knowledge` / `_load_knowledge`: `BUILTIN_KNOWLEDGE` is
empty, so every non-custom name raises `ValueError`. -/
def load_knowledge (w : World) (automaton_id : String)
    (data : Option CapabilityRef) : Except PyError (Option Knowledge) :=
  match data with
  | none => .ok none
  | some ref =>
    match load_engine w automaton_id ref.engine with
    | .error e => .error e
    | .ok engineOpt =>
      if strEndsWith ref.name ".py" then
        .ok (some (w.customKnowledge automaton_id ref.name engineOpt))
      else
        .error (.valueError
          ("Knowledge base " ++ ref.name ++
            " not part of builtin knowledge bases: `set()`"))

/-- `reflectors.load_reflector` / `_load_reflector`:
`load_builtin_reflector` unconditionally raises `NotImplementedError`. -/
def load_reflector (w : World) (automaton_id : String)
    (data : Option CapabilityRef) : Except PyError (Option Reflector) :=
  match data with
  | none => .ok none
  | some ref =>
    match load_engine w automaton_id ref.engine with
    | .error e => .error e
    | .ok engineOpt =>
      if strEndsWith ref.name ".py" then
        .ok (some (w.customReflector automaton_id ref.name engineOpt))
      else
        .error (.notImplementedError "load_builtin_reflector")


/-- The fallback instruction text returned by `react.parse_result` when the
regular expression does not match. -/
def react_format_reminder : String :=
  "I must output the following:\n- the `Sub-Automaton Name` to send a request to\n- the `Input Requirements`\n- what `Sub-Automaton Input` to send\nThe output must follow the format specified in the `thoughtcycle_format` block above"

/-- `react.parse_result`.  The source matches the DOTALL regular expression
`Sub-Automaton Name\s*\d*\s*:(.*?)\nSub-Automaton\s*\d*\s*Input\s*\d*\s*Requirements\s*\d*\s*:(.*?)\nSub-Automaton\s*\d*\s*Input\s*\d*\s*:[\s]*(.*)`;
the model realises it at the canonical spacing (every `\s*\d*\s*` gap matched
empty), with the lazy groups realised as first-occurrence splits and the
final greedy group as the remaining text. -/
def parse_result (result : String) : String × String :=
  match splitFirst "Sub-Automaton Name:" result with
  | none => ("Think", react_format_reminder)
  | some pr =>
    match splitFirst "\nSub-Automaton Input Requirements:" pr.2 with
    | none => ("Think", react_format_reminder)
    | some pr2 =>
      match splitFirst "\nSub-Automaton Input:" pr2.2 with
      | none => ("Think", react_format_reminder)
      | some pr3 => (pyStrip pr2.1, pyStrip pr3.2)

/-- The quoted display names interpolated into the ReAct prompt and into the
corrective message (`sub_automata_names` in `react_planner`). -/
def sub_automata_names_of (sub_automata_data : List (String × AutomatonData)) :
    List String :=
  sub_automata_data.map (fun p => "\"" ++ p.2.name ++ "\"")

/-- The corrective request text `react_planner` sends to `think` when the
parsed sub-automaton name maps to no known sub-automaton. -/
def corrective_message (sub_automata_data : List (String × AutomatonData)) :
    String :=
  "The Sub-Automaton Name must be one of the following: " ++
    pyReprList (sub_automata_names_of sub_automata_data)

/-- Models the `PROMPT`/`DIRECTIVES`/`STEP_INTRO` template assembly of
`react_planner`: a deterministic function of the same inputs, with the long
literal template text abbreviated — the engine consuming the prompt is
universally quantified in every theorem, so the exact wording never matters
to a proved property. -/
def mkReactPrompt (request : String) (steps_taken : List AutomatonStep)
    (reflection : Option (List String)) (automaton_data : AutomatonData)
    (sub_automata_data : List (String × AutomatonData)) : String :=
  let names := String.intercalate ", " (sub_automata_names_of sub_automata_data)
  let descriptions := String.intercalate "\n"
    (sub_automata_data.map (fun p =>
      "`" ++ p.2.name ++ "`: " ++ p.2.description ++ " / " ++
        String.intercalate "; " p.2.input_requirements))
  let steps_text := String.intercalate "\n\n"
    (steps_taken.map (fun s => s.plan_text ++ "\nResult:\n" ++ s.result))
  let reflection_text :=
    match reflection with
    | none => "None"
    | some lines => String.intercalate "\n" (lines.map (fun l => " -" ++ l))
  automaton_data.name ++ "\n" ++ request ++ "\n" ++ names ++ "\n" ++
    descriptions ++ "\n" ++ steps_text ++ "\nReflection:\n" ++ reflection_text

/-- The stripped engine completion `react_planner` feeds to `parse_result`
(`result = (await engine(prompt, stop=[...])).strip()`). -/
def react_raw (engine : Engine) (request : String)
    (steps_taken : List AutomatonStep) (reflection : Option (List String))
    (automaton_data : AutomatonData)
    (sub_automata_data : List (String × AutomatonData)) : String :=
  pyTrim (engine (mkReactPrompt request steps_taken reflection automaton_data
    sub_automata_data) ["Result:", "---"])

/-- `builtin_toolkit/planners/react.py` `react_planner`: require a `think`
sub-automaton, consult the engine, parse its output, and map the parsed
display name back to a sub-automaton identifier; an unmappable name becomes a
corrective delegation to `think` instead of an error. -/
def react_planner (engine : Engine) : Planner :=
  fun request steps_taken reflection automaton_data sub_automata_data =>
    if !(sub_automata_data.any (fun p => p.1 == "think")) then
      .error (.valueError
        "The ReAct planner requires a sub-automaton named `think` to be defined.")
    else
      let result := react_raw engine request steps_taken reflection
        automaton_data sub_automata_data
      let parsed := parse_result result
      match sub_automata_data.find? (fun p => p.2.name == parsed.1) with
      | none =>
        .ok (⟨"think", corrective_message sub_automata_data⟩, result)
      | some p => .ok (⟨p.1, parsed.2⟩, result)

/-- `BUILTIN_PLANNERS` from `builtin_toolkit/planners/__init__.py`. -/
def BUILTIN_PLANNERS : List String := ["react"]

/-- The `ValueError` message for an unknown built-in planner name; it
enumerates `BUILTIN_PLANNERS`. -/
def planner_not_found_message (name : String) : String :=
  "Planner `" ++ name ++ "` not part of builtin planners: `" ++
    pyReprSet BUILTIN_PLANNERS ++ "`."

/-- `builtin_toolkit/planners/__init__.py` `load_builtin_planner`. -/
def load_builtin_planner (name : String) (engine : Option Engine) :
    Except PyError Planner :=
  if name = "react" then
    match engine with
    | none =>
      .error (.valueError
        "Engine must be specified for builtin planner `react`. Currently `None`.")
    | some e => .ok (react_planner e)
  else .error (.valueError (planner_not_found_message name))

/-- `planners.load_planner` / `_load_planner`: resolve the engine first, then
a `.py` name loads a custom planner from the automaton's location, otherwise
the built-in registry is consulted. -/
def load_planner (w : World) (automaton_id : String) (ref : CapabilityRef) :
    Except PyError Planner :=
  match load_engine w automaton_id ref.engine with
  | .error e => .error e
  | .ok engineOpt =>
    if strEndsWith ref.name ".py" then
      .ok (w.customPlanner automaton_id ref.name engineOpt)
    else load_builtin_planner ref.name engineOpt

/-- `builtin_toolkit/automaton_functions.py` `load_builtin_function`:
dispatch on the automaton identifier.  `llm_assistant` requires an engine in
`extra_args`; `save_text` parses a JSON request (the parse itself and the
file write are outside the embedding, so the `World` supplies the parse and
the success/failure messages are modelled exactly); `think` and `finalize`
are the identity; anything else raises `NotImplementedError`. -/
def load_builtin_function (w : World) (automaton_id : String)
    (automaton_data : AutomatonData) (requester_id : String) :
    Except PyError RunnerFn :=
  if automaton_id = "llm_assistant" then
    match automaton_data.extra_args_engine with
    | none =>
      .error (.valueError
        ("Built-in automaton function `" ++ automaton_id ++
          "` requires the \"engine\" value in the `extra_args` field of the spec."))
    | some engine_name =>
      match load_engine w automaton_id (some engine_name) with
      | .error e => .error e
      | .ok none =>
        .error (.runtimeError "unreachable: a provided engine name never resolves to None")
      | .ok (some engine) => .ok (fun request => .ok (engine request []))
  else if automaton_id = "save_text" then
    .ok (fun request =>
      match w.parseSaveRequest request with
      | none =>
        .ok "Could not parse input. Please provide the input in the following format: \x7bfile_name: <file_name>, description: <description>, content: <content>\x7d"
      | some fc =>
        .ok (automaton_data.name ++ ": saved file to `" ++ requester_id ++
          "/" ++ fc.1 ++ "`"))
  else if automaton_id = "think" then .ok (fun request => .ok request)
  else if automaton_id = "finalize" then .ok (fun request => .ok request)
  else
    .error (.notImplementedError
      ("Unsupported function name: " ++ automaton_id ++ "."))

/-- Load a built-in function and apply it to a request. -/
def run_loaded_function (w : World) (automaton_id : String)
    (automaton_data : AutomatonData) (requester_id : String)
    (request : String) : Except PyError String :=
  match load_builtin_function w automaton_id automaton_data requester_id with
  | .error e => .error e
  | .ok run => run request

/-- The input-validation preamble shared by `run_core_automaton` and
`run_builtin_function`: `valid, error = await validate_input(request);
if not valid: return error`.  Yields the error text to return, or `none` to
continue. -/
def validation_failure (validate_input : Option Validator) (request : String) :
    Option String :=
  match validate_input with
  | none => none
  | some v =>
    let vr := v request
    if vr.1 then none else some vr.2

/-- `run_builtin_function` from `automaton.py`: validate the input, then load
and invoke the built-in function (the load happens at run time). -/
def run_builtin_function (w : World) (automaton_id : String)
    (automaton_data : AutomatonData) (validate_input : Option Validator)
    (requester_id : String) (request : String) : Except PyError String :=
  match validation_failure validate_input request with
  | some error => .ok error
  | none => run_loaded_function w automaton_id automaton_data requester_id request

/-- The dict comprehension
`{id: load_automaton_data(automata_location / id) for id in sub_automata}`:
loading a sub-automaton definition that has no document fails like the
missing file would. -/
def load_sub_data (w : World) : List String →
    Except PyError (List (String × AutomatonData))
  | [] => .ok []
  | id :: rest =>
    match w.defs id with
    | none => .error (.fileNotFound id)
    | some d =>
      match load_sub_data w rest with
      | .error e => .error e
      | .ok tl => .ok ((id, d) :: tl)

/-- The `while True` loop of `run_core_automaton`: reflect, plan, delegate to
the planned sub-automaton via `subRun`, append the `AutomatonStep`, and stop
when the delegated target was the terminal identifier `finalize`.  The fuel
argument bounds the number of iterations; the source loop is unbounded. -/
def core_loop (subRun : String → String → St → Except PyError String × St)
    (reflect : Option Reflector) (knowledge : Option Knowledge)
    (plan : Planner) (automaton_data : AutomatonData)
    (sub_automata_data : List (String × AutomatonData)) (request : String) :
    Nat → List AutomatonStep → St →
      (Except PyError String × List AutomatonStep) × St
  | 0, steps_taken, st => ((.error .outOfFuel, steps_taken), st)
  | fuel + 1, steps_taken, st =>
    let reflection :=
      reflect.map (fun r => r request steps_taken knowledge)
    match plan request steps_taken reflection automaton_data
        sub_automata_data with
    | .error e => ((.error e, steps_taken), st)
    | .ok (planned_action, action_text) =>
      match subRun planned_action.automaton_id planned_action.request st with
      | (.error e, st1) => ((.error e, steps_taken), st1)
      | (.ok result, st1) =>
        let current_step : AutomatonStep :=
          ⟨reflection, action_text, planned_action, result⟩
        let steps1 := steps_taken ++ [current_step]
        if planned_action.automaton_id = "finalize" then
          ((.ok result, steps1), st1)
        else
          core_loop subRun reflect knowledge plan automaton_data
            sub_automata_data request fuel steps1 st1

/-- `run_core_automaton` from `automaton.py`, with the delegation to
`load_automaton(...).run(...)` abstracted into `subRun`.  The body runs, in
source order: the `think`-membership precondition check (whose error message
names `finalize`), input validation, the run-time loading of knowledge,
reflector, planner and the sub-automata definitions, then the loop.  The
returned step list is the loop's `steps_taken` history. -/
def run_core_automaton (w : World)
    (subRun : String → String → St → Except PyError String × St)
    (automaton_id : String) (automaton_data : AutomatonData)
    (validate_input : Option Validator) (fuel : Nat) (request : String)
    (st : St) : (Except PyError String × List AutomatonStep) × St :=
  if automaton_data.sub_automata.contains "think" = false then
    ((.error (.valueError
      ("Core automaton runner: `" ++ automaton_id ++
        "` must have a `finalize` sub-automaton defined.")), []), st)
  else
    match validation_failure validate_input request with
    | some error => ((.ok error, []), st)
    | none =>
      match load_knowledge w automaton_id automaton_data.reasoning.knowledge with
      | .error e => ((.error e, []), st)
      | .ok knowledge =>
        match load_reflector w automaton_id automaton_data.reasoning.reflector with
        | .error e => ((.error e, []), st)
        | .ok reflect =>
          match load_planner w automaton_id automaton_data.reasoning.planner with
          | .error e => ((.error e, []), st)
          | .ok plan =>
            match load_sub_data w automaton_data.sub_automata with
            | .error e => ((.error e, []), st)
            | .ok sub_automata_data =>
              core_loop subRun reflect knowledge plan automaton_data
                sub_automata_data request fuel [] st

/-- The runner dispatch of `_load_automaton`. -/
inductive RunnerKind where
  | custom (runner_name : String)
  | builtin_function_runner
  | core_automaton_runner
  deriving DecidableEq, Repr

/-- What `_load_automaton` computes eagerly (before any run): the definition
document, the resolved input validator, the dispatched runner kind, and the
fresh session id for this (identifier, requester session, requester id) cache
key.  The reasoning components and the sub-automata documents are *not*
resolved here — `run_core_automaton` loads them at run time. -/
structure BuiltAutomaton where
  automaton_id : String
  data : AutomatonData
  validate_input : Option Validator
  kind : RunnerKind
  self_session_id : String

/-- The load-time part of `_load_automaton` (`automaton.py`): read the
definition document, resolve the input validator, dispatch on the runner
name (an unrecognised runner name raises `ValueError`), and fix the session
id.  Memoization of the whole of `_load_automaton` is modelled by
`World.sessionOf` being a function of the cache key, and is verified
separately by the resolver-cache model below. -/
def buildAutomaton (w : World) (automaton_id : String)
    (requester_session_id : String) (requester_id : String) :
    Except PyError BuiltAutomaton :=
  match w.defs automaton_id with
  | none => .error (.fileNotFound automaton_id)
  | some data =>
    match load_validator w automaton_id data.input_validator
        data.input_requirements data.objectives with
    | .error e => .error e
    | .ok validate_input =>
      if strEndsWith data.runner ".py" then
        .ok ⟨automaton_id, data, validate_input, .custom data.runner,
          w.sessionOf automaton_id requester_session_id requester_id⟩
      else if data.runner = "builtin_function_runner" then
        .ok ⟨automaton_id, data, validate_input, .builtin_function_runner,
          w.sessionOf automaton_id requester_session_id requester_id⟩
      else if data.runner = "core_automaton_runner" then
        .ok ⟨automaton_id, data, validate_input, .core_automaton_runner,
          w.sessionOf automaton_id requester_session_id requester_id⟩
      else
        .error (.valueError
          ("Invalid runner name: " ++ data.runner ++
            ". Must be a .py file or one of: \x7bbuiltin_function_runner, core_automaton_runner\x7d."))

/-- `load_automaton(...).run(request)`: build the automaton (load time), then
invoke its session-wrapped runner.  A composite automaton's loop re-enters
this function for every delegation, with the loop's own session as the
sub-automaton's requester session and this automaton's id as the requester
id.  Fuel decreases with every nested automaton run and every loop
iteration. -/
def runAutomaton (w : World) :
    Nat → String → String → String → String → St → Except PyError String × St
  | 0, _, _, _, _, st => (.error .outOfFuel, st)
  | fuel + 1, automaton_id, requester_session_id, requester_id, request, st =>
    match buildAutomaton w automaton_id requester_session_id requester_id with
    | .error e => (.error e, st)
    | .ok b =>
      let inner : String → St → Except PyError String × St := fun req st0 =>
        match b.kind with
        | .core_automaton_runner =>
          let subRun := fun sub_id sub_request st1 =>
            runAutomaton w fuel sub_id b.self_session_id automaton_id
              sub_request st1
          let r := run_core_automaton w subRun automaton_id b.data
            b.validate_input fuel req st0
          (r.1.1, r.2)
        | .builtin_function_runner =>
          (run_builtin_function w automaton_id b.data b.validate_input
            requester_id req, st0)
        | .custom rname =>
          (w.customRunner automaton_id rname b.data requester_id req, st0)
      add_session_handling inner automaton_id b.data.name b.self_session_id
        requester_id requester_session_id request st
termination_by structural fuel _ _ _ _ _ => fuel

/-- Model of an `@lru_cache(maxsize=None)` cache: the association of cache
keys to the retained instance of each key, plus a counter that tags each
newly constructed object.  Two resolutions yield the identical (Python
`is`-equal) object exactly when they yield the same tag. -/
structure ResolverState (κ : Type) where
  cache : List (κ × Nat)
  next_tag : Nat
  deriving Repr

/-- One memoized resolution: a cache hit returns the retained instance tag
and leaves the cache unchanged; a miss constructs a fresh instance, retains
it, and returns it. -/
def memo_resolve {κ : Type} [BEq κ] (key : κ) (s : ResolverState κ) :
    Nat × ResolverState κ :=
  match s.cache.find? (fun p => p.1 == key) with
  | some p => (p.2, s)
  | none => (s.next_tag, ⟨s.cache ++ [(key, s.next_tag)], s.next_tag + 1⟩)

/-- The cache key of `planners._load_planner`:
(automaton path, planner name, engine name). -/
abbrev PlannerCacheKey := String × String × String

/-- The cache key of `automaton._load_automaton`:
(automaton id, requester session id, requester id, automata location). -/
abbrev AutomatonCacheKey := String × String × String × String

/-- The memoized capability resolution of `planners._load_planner`. -/
def resolve_planner_cached (key : PlannerCacheKey)
    (s : ResolverState PlannerCacheKey) : Nat × ResolverState PlannerCacheKey :=
  memo_resolve key s

/-- The memoized agent construction of `automaton._load_automaton`. -/
def resolve_automaton_cached (key : AutomatonCacheKey)
    (s : ResolverState AutomatonCacheKey) :
    Nat × ResolverState AutomatonCacheKey :=
  memo_resolve key s

/-- Resolving a key a second time returns exactly the first resolution's
instance and leaves the cache untouched. -/
theorem memo_resolve_stable {κ : Type} [BEq κ] [LawfulBEq κ] (key : κ)
    (s : ResolverState κ) :
    memo_resolve key (memo_resolve key s).2 = memo_resolve key s := by
  unfold memo_resolve
  cases h : s.cache.find? (fun p => p.1 == key) with
  | some p => simp [h]
  | none =>
    simp only [h]
    have : (s.cache ++ [(key, s.next_tag)]).find? (fun p => p.1 == key) =
        some (key, s.next_tag) := by
      rw [List.find?_append, h]
      simp
    simp [this]

/-- An engine with constant empty output, for concrete worlds. -/
def defaultEngine : Engine := fun _ _ => ""

/-- A base world with an empty definition store and inert custom
capabilities; concrete scenarios override the relevant fields. -/
def W0 : World where
  defs := fun _ => none
  sessionOf := fun a rs rid => "sess-" ++ a ++ "-" ++ rs ++ "-" ++ rid
  builtinEngine := fun _ => defaultEngine
  customEngine := fun _ _ => defaultEngine
  customPlanner := fun _ _ _ => fun _ _ _ _ _ => .error (.runtimeError "unset")
  customReflector := fun _ _ _ => fun _ _ _ => []
  customKnowledge := fun _ _ _ => fun _ => ""
  customValidator := fun _ _ _ _ _ => fun _ => (true, "")
  customRunner := fun _ _ _ _ => fun _ => .error (.runtimeError "unset")
  parseSaveRequest := fun _ => none

/-- A definition document for the built-in `think` leaf automaton. -/
def dataThink : AutomatonData :=
  ⟨"Think", "passes text through", none, [], [], "text",
    ⟨none, none, ⟨"react", none⟩⟩, [], "builtin_function_runner", none⟩

/-- A definition document for the built-in `finalize` leaf automaton. -/
def dataFinalize : AutomatonData :=
  ⟨"Finalize Reply", "reports the result", none, [], [], "text",
    ⟨none, none, ⟨"react", none⟩⟩, [], "builtin_function_runner", none⟩

/-- Claim C2: for every completed run of any agent, exactly one Event record
(requester, sub-agent id, input, result, timestamp) is appended to the
running agent's own (agent, session) log, and one structurally identical
Event is appended to the requester's (requester id, requester session) log:
whenever the wrapped runner completes with a result, `add_session_handling`
returns that result and the final log is the inner run's log extended by
exactly these two entries, both carrying the same Event value. -/
theorem run_event_audit_symmetry
    (run : String → St → Except PyError String × St)
    (automaton_id : String) (automaton_name : String) (session_id : String)
    (requester_id : String) (requester_session_id : String) (request : String)
    (result : String) (st st1 : St)
    (h : run request st = (.ok result, st1)) :
    add_session_handling run automaton_id automaton_name session_id
        requester_id requester_session_id request st =
      (.ok result,
        ⟨st1.logs ++
          [⟨automaton_id, session_id,
             ⟨requester_id, automaton_id, request, result,
               generate_timestamp_id st1.clock⟩⟩,
           ⟨requester_id, requester_session_id,
             ⟨requester_id, automaton_id, request, result,
               generate_timestamp_id st1.clock⟩⟩],
         st1.clock + 1⟩) := by
  simp [add_session_handling, h, record_run_event, save_event, tick]

/-- Witness for C2 at a concrete leaf run. -/
theorem run_event_audit_symmetry_witness :
    add_session_handling (fun q st => (.ok ("R:" ++ q), st)) "child" "Child"
        "sessC" "parent" "sessP" "req" ⟨[], 0⟩ =
      (.ok "R:req",
        ⟨[⟨"child", "sessC",
            ⟨"parent", "child", "req", "R:req", generate_timestamp_id 0⟩⟩,
          ⟨"parent", "sessP",
            ⟨"parent", "child", "req", "R:req", generate_timestamp_id 0⟩⟩],
         1⟩) :=
  run_event_audit_symmetry (fun q st => (.ok ("R:" ++ q), st)) "child" "Child"
    "sessC" "parent" "sessP" "req" "R:req" ⟨[], 0⟩ ⟨[], 0⟩ rfl

/-- Claim C8: an external interruption (`KeyboardInterrupt`) during the
wrapped runner's execution yields a deterministic stand-in result — a
function of the display name only (`interruption_result`) — the Event
containing that stand-in is still appended to both logs, and the
interruption does not propagate (the wrapper returns an ordinary result). -/
theorem interruption_substitution_records_event
    (run : String → St → Except PyError String × St)
    (automaton_id : String) (automaton_name : String) (session_id : String)
    (requester_id : String) (requester_session_id : String) (request : String)
    (st st1 : St)
    (h : run request st = (.error .keyboardInterrupt, st1)) :
    add_session_handling run automaton_id automaton_name session_id
        requester_id requester_session_id request st =
      (.ok (interruption_result automaton_name),
        ⟨st1.logs ++
          [⟨automaton_id, session_id,
             ⟨requester_id, automaton_id, request,
               interruption_result automaton_name,
               generate_timestamp_id st1.clock⟩⟩,
           ⟨requester_id, requester_session_id,
             ⟨requester_id, automaton_id, request,
               interruption_result automaton_name,
               generate_timestamp_id st1.clock⟩⟩],
         st1.clock + 1⟩) := by
  simp [add_session_handling, h, record_run_event, save_event, tick]

/-- Witness for C8: a leaf runner interrupted mid-execution. -/
theorem interruption_substitution_records_event_witness :
    add_session_handling (fun _ st => (.error .keyboardInterrupt, st)) "child"
        "Child" "sessC" "parent" "sessP" "req" ⟨[], 0⟩ =
      (.ok (interruption_result "Child"),
        ⟨[⟨"child", "sessC",
            ⟨"parent", "child", "req", interruption_result "Child",
              generate_timestamp_id 0⟩⟩,
          ⟨"parent", "sessP",
            ⟨"parent", "child", "req", interruption_result "Child",
              generate_timestamp_id 0⟩⟩],
         1⟩) :=
  interruption_substitution_records_event
    (fun _ st => (.error .keyboardInterrupt, st)) "child" "Child" "sessC"
    "parent" "sessP" "req" ⟨[], 0⟩ ⟨[], 0⟩ rfl

/-- Counterexample to claim C4 as stated: a child whose execution fails with
a generic runtime error — an exception that is neither a configuration error
nor a capability-not-found error — escapes `add_session_handling` as an
exception; it is not translated into an ordinary result string, so the
parent does not always receive text from a child run. -/
theorem child_runtime_error_escapes :
    add_session_handling (fun _ st => (.error (.runtimeError "boom"), st))
        "child" "Child" "sessC" "parent" "sessP" "req" ⟨[], 0⟩ =
      (.error (.runtimeError "boom"), ⟨[], 0⟩) := rfl

/-- Claim C4 (amended): at the session-handling wrapper — the only layer
standing between a child run and its parent — only `KeyboardInterrupt` is
caught and translated into an ordinary result string; every other exception
raised during the child's execution propagates unchanged to the parent, and
no Event is recorded for it. -/
theorem session_wrapper_propagates_other_errors
    (run : String → St → Except PyError String × St)
    (automaton_id : String) (automaton_name : String) (session_id : String)
    (requester_id : String) (requester_session_id : String) (request : String)
    (e : PyError) (st st1 : St)
    (h : run request st = (.error e, st1))
    (he : e ≠ PyError.keyboardInterrupt) :
    add_session_handling run automaton_id automaton_name session_id
        requester_id requester_session_id request st = (.error e, st1) := by
  cases e <;>
    first
      | exact absurd rfl he
      | simp [add_session_handling, h]

/-- Witness for C4's amended propagation statement. -/
theorem session_wrapper_propagates_other_errors_witness :
    add_session_handling
        (fun _ st => (.error (.notImplementedError "x"), st)) "child" "Child"
        "sessC" "parent" "sessP" "req" ⟨[], 0⟩ =
      (.error (.notImplementedError "x"), ⟨[], 0⟩) :=
  session_wrapper_propagates_other_errors
    (fun _ st => (.error (.notImplementedError "x"), st)) "child" "Child"
    "sessC" "parent" "sessP" "req" (.notImplementedError "x") ⟨[], 0⟩ ⟨[], 0⟩
    rfl (by decide)

/-- Claim C7: resolving the same capability twice with identical
(location, name, engine-name) key returns the identical cached instance, and
likewise for the agent builder keyed by (identifier, requester session,
requester identity, location): a second resolution of the same key returns
exactly the first resolution's instance tag and leaves the cache unchanged. -/
theorem memoized_resolution_identity (pk : PlannerCacheKey)
    (sp : ResolverState PlannerCacheKey) (ak : AutomatonCacheKey)
    (sa : ResolverState AutomatonCacheKey) :
    resolve_planner_cached pk (resolve_planner_cached pk sp).2 =
      resolve_planner_cached pk sp ∧
    resolve_automaton_cached ak (resolve_automaton_cached ak sa).2 =
      resolve_automaton_cached ak sa :=
  ⟨memo_resolve_stable pk sp, memo_resolve_stable ak sa⟩

/-- Closed runner-name fact used to reduce the builder's dispatch. -/
theorem ew_core_runner : strEndsWith "core_automaton_runner" ".py" = false := rfl

/-- Closed runner-name fact used to reduce the builder's dispatch. -/
theorem ew_builtin_runner :
    strEndsWith "builtin_function_runner" ".py" = false := rfl

/-- Closed capability-name fact: a `.py` name resolves as custom code. -/
theorem ew_p_py : strEndsWith "p.py" ".py" = true := rfl

/-- Closed capability-name fact used by the unknown-planner scenario. -/
theorem ew_nonexistent : strEndsWith "nonexistent_planner" ".py" = false := rfl

/-- Closed string disequality for the builder's dispatch. -/
theorem ne_core_builtin :
    ("core_automaton_runner" = "builtin_function_runner") = False :=
  eq_false (by decide)

/-- Closed string disequality for the built-in planner registry. -/
theorem ne_nonexistent_react : ("nonexistent_planner" = "react") = False :=
  eq_false (by decide)

/-- Closed string disequality for the loop's terminal check. -/
theorem ne_think_finalize : ("think" = "finalize") = False :=
  eq_false (by decide)

/-- Closed string disequality for the built-in function dispatch. -/
theorem ne_finalize_llm : ("finalize" = "llm_assistant") = False :=
  eq_false (by decide)

/-- Closed string disequality for the built-in function dispatch. -/
theorem ne_finalize_save : ("finalize" = "save_text") = False :=
  eq_false (by decide)

/-- Closed string disequality for the built-in function dispatch. -/
theorem ne_finalize_think : ("finalize" = "think") = False :=
  eq_false (by decide)

/-- Closed string disequality for the built-in function dispatch. -/
theorem ne_think_llm : ("think" = "llm_assistant") = False :=
  eq_false (by decide)

/-- Closed string disequality for the built-in function dispatch. -/
theorem ne_think_save : ("think" = "save_text") = False :=
  eq_false (by decide)

/-- Claim C1: for a composite agent whose planner selects the terminal
identifier `finalize` on the first iteration, `run_core_automaton` returns
that terminal sub-agent's result as the whole agent's result, the loop stops
(for any remaining fuel), and the step history holds exactly one
`AutomatonStep`. -/
theorem core_terminal_first_iteration
    (w : World)
    (subRun : String → String → St → Except PyError String × St)
    (automaton_id : String) (automaton_data : AutomatonData) (fuel : Nat)
    (request : String) (final_request : String) (plan_text : String)
    (result : String) (st st1 : St) (knowledge : Option Knowledge)
    (reflect : Option Reflector) (plan : Planner)
    (sub_automata_data : List (String × AutomatonData))
    (hthink : automaton_data.sub_automata.contains "think" = true)
    (hkn : load_knowledge w automaton_id automaton_data.reasoning.knowledge =
      .ok knowledge)
    (hrefl : load_reflector w automaton_id automaton_data.reasoning.reflector =
      .ok reflect)
    (hplan : load_planner w automaton_id automaton_data.reasoning.planner =
      .ok plan)
    (hsub : load_sub_data w automaton_data.sub_automata =
      .ok sub_automata_data)
    (hfirst : plan request [] (reflect.map (fun r => r request [] knowledge))
        automaton_data sub_automata_data =
      .ok (⟨"finalize", final_request⟩, plan_text))
    (hrun : subRun "finalize" final_request st = (.ok result, st1)) :
    run_core_automaton w subRun automaton_id automaton_data none (fuel + 1)
        request st =
      ((.ok result,
        [⟨reflect.map (fun r => r request [] knowledge), plan_text,
          ⟨"finalize", final_request⟩, result⟩]), st1) := by
  have hmem : "think" ∈ automaton_data.sub_automata := by simpa using hthink
  simp [run_core_automaton, validation_failure, hmem, hkn, hrefl, hplan,
    hsub, core_loop, hfirst, hrun]

/-- A composite definition delegating to `think` and `finalize`, wired to a
custom planner `p.py`. -/
def dataComp : AutomatonData :=
  ⟨"Comp", "a composite agent", none, [], [], "text",
    ⟨none, none, ⟨"p.py", none⟩⟩, ["think", "finalize"],
    "core_automaton_runner", none⟩

/-- A world whose store holds the composite and its two leaves, and whose
custom planner immediately selects `finalize` with request `OUT`. -/
def WT : World := { W0 with
  defs := fun id =>
    if id = "comp" then some dataComp
    else if id = "think" then some dataThink
    else if id = "finalize" then some dataFinalize
    else none,
  customPlanner := fun _ _ _ =>
    fun _ _ _ _ _ => .ok (⟨"finalize", "OUT"⟩, "raw") }

/-- Witness for C1 at the concrete world `WT`. -/
theorem core_terminal_first_iteration_witness :
    run_core_automaton WT (fun _ q st => (.ok ("R:" ++ q), st)) "comp" dataComp
        none 3 "req" ⟨[], 0⟩ =
      ((.ok "R:OUT", [⟨none, "raw", ⟨"finalize", "OUT"⟩, "R:OUT"⟩]),
        ⟨[], 0⟩) :=
  core_terminal_first_iteration WT (fun _ q st => (.ok ("R:" ++ q), st))
    "comp" dataComp 2 "req" "OUT" "raw" "R:OUT" ⟨[], 0⟩ ⟨[], 0⟩ none none
    (WT.customPlanner "comp" "p.py" none)
    [("think", dataThink), ("finalize", dataFinalize)]
    rfl rfl rfl rfl rfl rfl rfl

/-- The definition store document for the built-in `save_text` leaf. -/
def dataSaveText : AutomatonData :=
  ⟨"Save Text", "saves text to the workspace", none, [], [], "text",
    ⟨none, none, ⟨"react", none⟩⟩, [], "builtin_function_runner", none⟩

/-- An orchestration-loop definition whose sub-agent list does NOT include
the reserved terminal identifier `finalize`. -/
def dataNoFinalize : AutomatonData :=
  ⟨"Agent3", "composite without the terminal target", none, [], [], "text",
    ⟨none, none, ⟨"p.py", none⟩⟩, ["think", "save_text"],
    "core_automaton_runner", none⟩

/-- A world containing `dataNoFinalize`; its planner picks `finalize` (which
exists in the store but not in the sub-agent list). -/
def W3 : World := { W0 with
  defs := fun id =>
    if id = "agent3" then some dataNoFinalize
    else if id = "think" then some dataThink
    else if id = "save_text" then some dataSaveText
    else if id = "finalize" then some dataFinalize
    else none,
  customPlanner := fun _ _ _ =>
    fun _ _ _ _ _ => .ok (⟨"finalize", "done"⟩, "raw") }

/-- Claim C3 (evaluation of the code at the failing input): a composite
definition whose sub-agent list lacks `finalize` is not rejected anywhere —
building succeeds with no error, and a complete run finishes normally.  The
only guard in `run_core_automaton` tests membership of `think`, although its
own error message demands a `finalize` sub-automaton. -/
theorem missing_finalize_not_rejected :
    (∃ b, buildAutomaton W3 "agent3" "s0" "user" = .ok b) ∧
    dataNoFinalize.sub_automata.contains "finalize" = false ∧
    (runAutomaton W3 3 "agent3" "s0" "user" "req" ⟨[], 0⟩).1 = .ok "done" :=
  ⟨⟨_, rfl⟩, rfl, rfl⟩

/-- A composite definition with an input validator wired but no `think` in
its sub-agent list. -/
def dataNoThinkValidated : AutomatonData :=
  ⟨"Agent5", "validator wired, no think sub-agent", some ⟨"v.py", none⟩,
    ["r1"], [], "text", ⟨none, none, ⟨"p.py", none⟩⟩, ["finalize"],
    "core_automaton_runner", none⟩

/-- A world whose custom validator rejects every request. -/
def W5 : World := { W0 with
  defs := fun id =>
    if id = "agent5" then some dataNoThinkValidated else none,
  customValidator := fun _ _ _ _ _ => fun _ => (false, "INVALID") }

/-- Counterexample to claim C5 as stated: this agent has an input validator
wired that reports every request invalid, yet run(request) raises a
`ValueError` instead of returning the validator's message, and no Event is
recorded — because the core runner's `think`-membership check runs before
the validator is ever invoked. -/
theorem think_check_precedes_validation :
    runAutomaton W5 2 "agent5" "s0" "user" "req" ⟨[], 0⟩ =
      (.error (.valueError
        "Core automaton runner: `agent5` must have a `finalize` sub-automaton defined."),
       ⟨[], 0⟩) := rfl

/-- Claim C5 (amended): for a composite agent with an input validator wired
whose sub-agent list includes `think` (the precondition the core runner
checks first), a request the validator rejects makes run(request) return the
validator's message without raising, with exactly one Event carrying that
message appended to the agent's own log and one to the requester's log; and
the orchestration loop body is never entered — for every possible delegation
behaviour the core runner returns the message with an empty step history and
an unchanged state, independent of the reasoning wiring. -/
theorem validation_short_circuit_after_think_check
    (w : World) (fuel : Nat) (automaton_id : String)
    (requester_session_id : String) (requester_id : String) (request : String)
    (msg : String) (data : AutomatonData) (v : Validator) (st : St)
    (hdef : w.defs automaton_id = some data)
    (hrunner : data.runner = "core_automaton_runner")
    (hval : load_validator w automaton_id data.input_validator
      data.input_requirements data.objectives = .ok (some v))
    (hthink : data.sub_automata.contains "think" = true)
    (hinvalid : v request = (false, msg)) :
    runAutomaton w (fuel + 1) automaton_id requester_session_id requester_id
        request st =
      (.ok msg,
        ⟨st.logs ++
          [⟨automaton_id,
             w.sessionOf automaton_id requester_session_id requester_id,
             ⟨requester_id, automaton_id, request, msg,
               generate_timestamp_id st.clock⟩⟩,
           ⟨requester_id, requester_session_id,
             ⟨requester_id, automaton_id, request, msg,
               generate_timestamp_id st.clock⟩⟩],
         st.clock + 1⟩) ∧
    ∀ subRun, run_core_automaton w subRun automaton_id data (some v) fuel
        request st = ((.ok msg, []), st) := by
  have hmem : "think" ∈ data.sub_automata := by simpa using hthink
  constructor
  · simp [runAutomaton, buildAutomaton, hdef, hval, hrunner, ew_core_runner,
      ne_core_builtin, run_core_automaton, validation_failure, hmem, hinvalid,
      add_session_handling, record_run_event, save_event, tick]
  · intro subRun
    simp [run_core_automaton, validation_failure, hmem, hinvalid]

/-- A composite definition with a validator wired and `think` present. -/
def dataThinkValidated : AutomatonData :=
  ⟨"Agent5b", "validator wired, think present", some ⟨"v.py", none⟩, ["r1"],
    [], "text", ⟨none, none, ⟨"p.py", none⟩⟩, ["think", "finalize"],
    "core_automaton_runner", none⟩

/-- A world holding `dataThinkValidated`, with an all-rejecting validator. -/
def W5b : World := { W0 with
  defs := fun id =>
    if id = "agent5b" then some dataThinkValidated else none,
  customValidator := fun _ _ _ _ _ => fun _ => (false, "INVALID") }

/-- Witness for C5's amended statement at the concrete world `W5b`. -/
theorem validation_short_circuit_after_think_check_witness :
    (runAutomaton W5b 1 "agent5b" "s0" "user" "req" ⟨[], 0⟩ =
      (.ok "INVALID",
        ⟨[⟨"agent5b", W5b.sessionOf "agent5b" "s0" "user",
            ⟨"user", "agent5b", "req", "INVALID", generate_timestamp_id 0⟩⟩,
          ⟨"user", "s0",
            ⟨"user", "agent5b", "req", "INVALID", generate_timestamp_id 0⟩⟩],
         1⟩)) ∧
    ∀ subRun, run_core_automaton W5b subRun "agent5b" dataThinkValidated
        (some (W5b.customValidator "agent5b" "v.py" none ["r1"] [])) 0 "req"
        ⟨[], 0⟩ =
      ((.ok "INVALID", []), ⟨[], 0⟩) :=
  validation_short_circuit_after_think_check W5b 0 "agent5b" "s0" "user" "req"
    "INVALID" dataThinkValidated
    (W5b.customValidator "agent5b" "v.py" none ["r1"] []) ⟨[], 0⟩
    rfl rfl rfl rfl rfl

/-- A composite definition wiring the unknown planner name
`nonexistent_planner` (no `.py` suffix, no built-in match). -/
def dataBadPlanner : AutomatonData :=
  ⟨"Agent6", "wires an unknown planner", none, [], [], "text",
    ⟨none, none, ⟨"nonexistent_planner", some "gpt-4"⟩⟩,
    ["think", "finalize"], "core_automaton_runner", none⟩

/-- A world holding `dataBadPlanner`. -/
def W6 : World := { W0 with
  defs := fun id => if id = "agent6" then some dataBadPlanner else none }

/-- Counterexample to claim C6 as stated: with the unknown capability name
`nonexistent_planner` wired as the planner, building the agent succeeds —
no capability error is raised before the Runner executes, because the
planner is only resolved inside `run_core_automaton`. -/
theorem unknown_planner_build_succeeds :
    ∃ b, buildAutomaton W6 "agent6" "s0" "user" = .ok b :=
  ⟨_, rfl⟩

/-- Claim C6 (amended): wiring the unknown capability name
`nonexistent_planner` is detected when the composite Runner first executes,
not at build time: the run fails with a `ValueError` whose message
enumerates the known built-in planner set, before any reflection, planning
or delegation (the state — hence both logs — is unchanged and no step is
taken), and the error escapes the session wrapper. -/
theorem unknown_planner_fails_at_run_start
    (w : World) (fuel : Nat) (automaton_id : String)
    (requester_session_id : String) (requester_id : String) (request : String)
    (engine_name : String) (data : AutomatonData) (engineOpt : Option Engine)
    (st : St)
    (hdef : w.defs automaton_id = some data)
    (hrunner : data.runner = "core_automaton_runner")
    (hval : data.input_validator = none)
    (hthink : data.sub_automata.contains "think" = true)
    (hkn : data.reasoning.knowledge = none)
    (hrefl : data.reasoning.reflector = none)
    (hplanner : data.reasoning.planner =
      ⟨"nonexistent_planner", some engine_name⟩)
    (heng : load_engine w automaton_id (some engine_name) = .ok engineOpt) :
    runAutomaton w (fuel + 1) automaton_id requester_session_id requester_id
        request st =
      (.error (.valueError (planner_not_found_message "nonexistent_planner")),
        st) := by
  have hmem : "think" ∈ data.sub_automata := by simpa using hthink
  simp [runAutomaton, buildAutomaton, hdef, hval, hrunner, ew_core_runner,
    ne_core_builtin, load_validator, run_core_automaton, validation_failure,
    hmem, hkn, hrefl, hplanner, load_knowledge, load_reflector, load_planner,
    heng, ew_nonexistent, load_builtin_planner, ne_nonexistent_react,
    add_session_handling]

/-- Witness for C6's amended statement at the concrete world `W6`. -/
theorem unknown_planner_fails_at_run_start_witness :
    runAutomaton W6 1 "agent6" "s0" "user" "req" ⟨[], 0⟩ =
      (.error (.valueError (planner_not_found_message "nonexistent_planner")),
        ⟨[], 0⟩) :=
  unknown_planner_fails_at_run_start W6 0 "agent6" "s0" "user" "req" "gpt-4"
    dataBadPlanner (some (W6.builtinEngine "gpt-4")) ⟨[], 0⟩
    rfl rfl rfl rfl rfl rfl rfl rfl

/-- Claim C9: when the ReAct planner's parsed sub-automaton name maps to no
known sub-agent identifier, the planner returns a corrective delegation to
the reflection-seed agent `think` carrying an explanatory message (instead
of raising), and — when `think` echoes its request, as the built-in `think`
runner does — the loop's next iteration sees a step whose `result` is that
corrective message. -/
theorem planner_unmapped_name_corrective
    (engine : Engine) (request : String) (steps_taken : List AutomatonStep)
    (reflect : Option Reflector) (knowledge : Option Knowledge)
    (automaton_data : AutomatonData)
    (sub_automata_data : List (String × AutomatonData))
    (subRun : String → String → St → Except PyError String × St)
    (st st1 : St) (fuel : Nat) (reflection : Option (List String))
    (raw : String)
    (hreflection : reflection =
      reflect.map (fun r => r request steps_taken knowledge))
    (hraw : raw = react_raw engine request steps_taken reflection
      automaton_data sub_automata_data)
    (hthink : sub_automata_data.any (fun p => p.1 == "think") = true)
    (hnomap : sub_automata_data.find?
      (fun p => p.2.name == (parse_result raw).1) = none)
    (hecho : subRun "think" (corrective_message sub_automata_data) st =
      (.ok (corrective_message sub_automata_data), st1)) :
    react_planner engine request steps_taken reflection automaton_data
        sub_automata_data =
      .ok (⟨"think", corrective_message sub_automata_data⟩, raw) ∧
    core_loop subRun reflect knowledge (react_planner engine) automaton_data
        sub_automata_data request (fuel + 1) steps_taken st =
      core_loop subRun reflect knowledge (react_planner engine) automaton_data
        sub_automata_data request fuel
        (steps_taken ++
          [⟨reflection, raw, ⟨"think", corrective_message sub_automata_data⟩,
            corrective_message sub_automata_data⟩]) st1 := by
  subst hreflection
  subst hraw
  have h1 : react_planner engine request steps_taken
      (reflect.map (fun r => r request steps_taken knowledge)) automaton_data
      sub_automata_data =
      .ok (⟨"think", corrective_message sub_automata_data⟩,
        react_raw engine request steps_taken
          (reflect.map (fun r => r request steps_taken knowledge))
          automaton_data sub_automata_data) := by
    simp [react_planner, hthink, hnomap]
  refine ⟨h1, ?_⟩
  simp [core_loop, h1, hecho, ne_think_finalize]

/-- An engine whose completion names a sub-automaton (`Ghost`) that no
sub-agent's display name matches. -/
def engineGhost : Engine := fun _ _ =>
  "Sub-Automaton Name: Ghost\nSub-Automaton Input Requirements: r\nSub-Automaton Input: x"

/-- The sub-automata mapping of a composite that only knows `think`. -/
def subDataThinkOnly : List (String × AutomatonData) := [("think", dataThink)]

/-- Witness for C9 at a concrete engine output naming an unknown target. -/
theorem planner_unmapped_name_corrective_witness :
    react_planner engineGhost "req" [] none dataComp subDataThinkOnly =
      .ok (⟨"think", corrective_message subDataThinkOnly⟩,
        react_raw engineGhost "req" [] none dataComp subDataThinkOnly) ∧
    core_loop (fun _ q st => (.ok q, st)) none none
        (react_planner engineGhost) dataComp subDataThinkOnly "req" 1 []
        ⟨[], 0⟩ =
      core_loop (fun _ q st => (.ok q, st)) none none
        (react_planner engineGhost) dataComp subDataThinkOnly "req" 0
        ([] ++
          [⟨none, react_raw engineGhost "req" [] none dataComp subDataThinkOnly,
            ⟨"think", corrective_message subDataThinkOnly⟩,
            corrective_message subDataThinkOnly⟩]) ⟨[], 0⟩ :=
  planner_unmapped_name_corrective engineGhost "req" [] none none dataComp
    subDataThinkOnly (fun _ q st => (.ok q, st)) ⟨[], 0⟩ ⟨[], 0⟩ 0 none
    (react_raw engineGhost "req" [] none dataComp subDataThinkOnly)
    rfl rfl rfl rfl rfl

/-- Claim C10: the built-in leaf runners for the reserved identifiers
`think` and `finalize` are identity functions — for every request string the
loaded runner returns the request unchanged — and consequently a composite
run whose planner delegates to the built-in `finalize` with some final text
returns that text verbatim as the composite agent's result. -/
theorem builtin_identity_terminal_verbatim
    (w : World) (fuel : Nat) (cid : String) (requester_session_id : String)
    (requester_id : String) (request : String) (final_text : String)
    (plan_text : String) (dataC dataF dataT : AutomatonData)
    (ridT ridF : String) (subDefs : List (String × AutomatonData)) (st : St)
    (hdefC : w.defs cid = some dataC)
    (hrunnerC : dataC.runner = "core_automaton_runner")
    (hvalC : dataC.input_validator = none)
    (hthink : dataC.sub_automata.contains "think" = true)
    (hkn : dataC.reasoning.knowledge = none)
    (hrefl : dataC.reasoning.reflector = none)
    (hplanner : dataC.reasoning.planner = ⟨"p.py", none⟩)
    (hsub : load_sub_data w dataC.sub_automata = .ok subDefs)
    (hplan : w.customPlanner cid "p.py" none request [] none dataC subDefs =
      .ok (⟨"finalize", final_text⟩, plan_text))
    (hdefF : w.defs "finalize" = some dataF)
    (hrunnerF : dataF.runner = "builtin_function_runner")
    (hvalF : dataF.input_validator = none) :
    (∀ q, run_loaded_function w "think" dataT ridT q = .ok q) ∧
    (∀ q, run_loaded_function w "finalize" dataF ridF q = .ok q) ∧
    (runAutomaton w (fuel + 1 + 1) cid requester_session_id requester_id
      request st).1 = .ok final_text := by
  have hmem : "think" ∈ dataC.sub_automata := by simpa using hthink
  refine ⟨?_, ?_, ?_⟩
  · intro q
    simp [run_loaded_function, load_builtin_function, ne_think_llm,
      ne_think_save]
  · intro q
    simp [run_loaded_function, load_builtin_function, ne_finalize_llm,
      ne_finalize_save, ne_finalize_think]
  · simp [runAutomaton, buildAutomaton, hdefC, hvalC, hrunnerC, ew_core_runner,
      ne_core_builtin, load_validator, run_core_automaton, validation_failure,
      hmem, hkn, hrefl, hplanner, load_knowledge, load_reflector, load_planner,
      load_engine, ew_p_py, hsub, core_loop, hplan, hdefF, hvalF, hrunnerF,
      ew_builtin_runner, run_builtin_function, run_loaded_function,
      load_builtin_function, ne_finalize_llm, ne_finalize_save,
      ne_finalize_think, add_session_handling, record_run_event, save_event,
      tick]

/-- Witness for C10 at the concrete world `WT`: the loaded `think` and
`finalize` runners echo their requests, and the composite run returns the
planner's final request text `OUT` verbatim. -/
theorem builtin_identity_terminal_verbatim_witness :
    (∀ q, run_loaded_function WT "think" dataThink "user" q = .ok q) ∧
    (∀ q, run_loaded_function WT "finalize" dataFinalize "comp" q = .ok q) ∧
    (runAutomaton WT 3 "comp" "s0" "user" "go" ⟨[], 0⟩).1 = .ok "OUT" :=
  builtin_identity_terminal_verbatim WT 1 "comp" "s0" "user" "go" "OUT" "raw"
    dataComp dataFinalize dataThink "user" "comp"
    [("think", dataThink), ("finalize", dataFinalize)] ⟨[], 0⟩
    rfl rfl rfl rfl rfl rfl rfl rfl rfl rfl rfl rfl
